import Mathlib

/-!
# Verification of the `POST /<module>/login` handler of iptvro_v2

Shallow embedding of `src/routes/LoginRoute.ts`. The handler's awaited
collaborators (`import` of the module file, `mod.getAuth`, the JSON body
parse, `Loader.login`, `mod.setAuth`) are modelled as inputs supplied by
an environment record `ModEnv`; the handler itself is a pure function from
that environment to an `HttpResult` that records the HTTP status, the
response envelope, the emitted log lines, the `setAuth` calls, the
arguments passed to `Loader.login`, and how many module instances were
constructed.

Per the spec (§4.2, §4.3, §7), `getAuth` never fails (an unreadable record
degrades to a zero-value record) and `setAuth`/`save` is an atomic
overwrite with no specified failure mode, so both are modelled as
infallible; the module import, the body parse and `Loader.login` can all
reject, which the handler's single `try/catch` intercepts.

JavaScript truthiness of strings (`""` and `undefined` are falsy) is
modelled explicitly by `jsOr` / `jsOrOpt`. Log text is modelled without
the surrounding quote characters of the original template literals.
-/

/-- A thrown JavaScript error value, as seen by the catch block:
its classification (which provider-level error it represents), its
`.message` and its `.toString()` rendering. -/
inductive ErrKind where
  | authentication
  | upstreamBlocked
  | moduleNotFound
  | bodyParse
  | internal
deriving DecidableEq, Repr

structure ErrVal where
  kind : ErrKind
  message : String
  toStr : String
deriving DecidableEq, Repr

/-- Result of an awaited JavaScript promise: resolved or rejected. -/
inductive JsResult (α : Type) where
  | ok : α → JsResult α
  | thrown : ErrVal → JsResult α
deriving DecidableEq, Repr

/-- The per-module persisted credential record (`AuthRecord`), as read by
`mod.getAuth()` and written by `mod.setAuth(config)`. -/
structure AuthRecord where
  username : String
  password : String
  authTokens : List String
  lastupdated : Nat
deriving DecidableEq, Repr

/-- The parsed JSON request body: `result.username` / `result.password`
are each either absent (`undefined`) or a string. -/
structure ReqBody where
  username : Option String
  password : Option String
deriving DecidableEq, Repr

/-- Modelled from the spec: the uniform `ResponseEnvelope`
`{ status, module, data, message?, error? }` built by the `Response`
constructor of `ApiResponse.ts` (that file is not in the sources; the
handler calls `new Response(status, moduleId, data, message, error)`
positionally). -/
structure ResponseEnvelope where
  status : String
  module : String
  data : Option (List String)
  message : Option String
  error : Option String
deriving DecidableEq, Repr

/-- The environment of one request: what each awaited collaborator
returns. `importOk` is whether `import(.../modules/<id>.ts)` resolves;
`storedAuth` is what `mod.getAuth()` returns; `bodyResult` is the JSON
body parse; `loginResult` is what `Loader.login` returns for this request;
`now` is the timestamp `new Date()` produces. -/
structure ModEnv where
  importOk : Bool
  importErr : ErrVal
  storedAuth : AuthRecord
  bodyResult : JsResult ReqBody
  loginResult : JsResult (List String)
  now : Nat
deriving DecidableEq, Repr

/-- Everything observable about one handler execution. -/
structure HttpResult where
  httpStatus : Nat
  body : ResponseEnvelope
  logs : List String
  setAuthCalls : List AuthRecord
  loginCall : Option (String × String)
  constructed : Nat
deriving DecidableEq, Repr

/-- JavaScript `a || d` for a string `a` (falls back when `a` is `""`). -/
def jsOr (a d : String) : String :=
  if a = "" then d else a

/-- JavaScript `a || d` where `a` is a string or `undefined`. -/
def jsOrOpt : Option String → String → String
  | some s, d => jsOr s d
  | none, d => d

/-- The catch block's message:
`error?.message || error?.toString?.().substring(0, 200) || "Login failed"`. -/
def errMsg (e : ErrVal) : String :=
  jsOr e.message (jsOr (e.toStr.take 200) "Login failed")

/-- The catch block (lines 57-69): log the message, set status 500 and an
ERROR envelope `new Response("ERROR", moduleId, null, undefined, msg)`. -/
def catchResult (moduleId : String) (logs : List String) (constructed : Nat)
    (loginCall : Option (String × String)) (e : ErrVal) : HttpResult :=
  { httpStatus := 500
  , body := { status := "ERROR", module := moduleId, data := none,
              message := none, error := some (errMsg e) }
  , logs := logs ++ [errMsg e]
  , setAuthCalls := []
  , loginCall := loginCall
  , constructed := constructed }

/-- Line 39: `Array.isArray(authTokens) && Boolean(authTokens[0])`.
`authTokens` is a `string[]`, so `Array.isArray` holds and the check is
the truthiness of the first element (`undefined` when the list is empty,
falsy when it is the empty string). -/
def hasValidToken : List String → Bool
  | [] => false
  | t :: _ => t ≠ ""

/-- The login-attempt log line (lines 24-31): the username and its origin,
chosen by the truthiness of `result.username`. -/
def attemptLog (moduleId : String) (result : ReqBody) (config : AuthRecord) : String :=
  moduleId ++ " login attempt with username " ++
    (match result.username with
     | some u =>
       if u = "" then config.username ++ " from file (request empty)"
       else u ++ " from request"
     | none => config.username ++ " from file (request empty)")

/-- The `POST /<module>/login` handler of `LoginRoute.ts`, lines 10-71,
as a pure function of the request environment. -/
def loginHandler (moduleId : String) (env : ModEnv) : HttpResult :=
  let logs0 := ["login request for module " ++ moduleId]
  if env.importOk then
    let config := env.storedAuth
    match env.bodyResult with
    | .thrown e => catchResult moduleId logs0 1 none e
    | .ok result =>
      let logs1 := logs0 ++ [attemptLog moduleId result config]
      let u := jsOrOpt result.username config.username
      let p := jsOrOpt result.password config.password
      match env.loginResult with
      | .thrown e => catchResult moduleId logs1 1 (some (u, p)) e
      | .ok authTokens =>
        if hasValidToken authTokens then
          let config2 := { config with authTokens := authTokens, lastupdated := env.now }
          { httpStatus := 200
          , body := { status := "SUCCESS", module := moduleId,
                      data := some authTokens, message := none, error := none }
          , logs := logs1 ++ [moduleId ++ " login success"]
          , setAuthCalls := [config2]
          , loginCall := some (u, p)
          , constructed := 1 }
        else
          { httpStatus := 401
          , body := { status := "ERROR", module := moduleId, data := none,
                      message := none,
                      error := some ("Authentication failed for module "
                        ++ moduleId ++ " (token missing)") }
          , logs := logs1
          , setAuthCalls := []
          , loginCall := some (u, p)
          , constructed := 1 }
  else
    catchResult moduleId logs0 0 none env.importErr

/-- A sequence of requests to the same process: total number of module
instances constructed (`new (await import(...)).default()` runs once per
request that resolves the module file). -/
def runRequests (moduleId : String) (envs : List ModEnv) : Nat :=
  (envs.map (fun e => (loginHandler moduleId e).constructed)).sum

/-- A convenient concrete environment builder for witnesses. -/
def demoEnv (body : JsResult ReqBody) (login : JsResult (List String)) : ModEnv :=
  { importOk := true
  , importErr := { kind := .internal, message := "", toStr := "" }
  , storedAuth := { username := "fileUser", password := "filePass",
                    authTokens := ["old"], lastupdated := 5 }
  , bodyResult := body
  , loginResult := login
  , now := 42 }

/-- Concrete environment: provider login succeeds with tokens. -/
def okTokenEnv : ModEnv := demoEnv (.ok ⟨none, none⟩) (.ok ["abc"])

/-- Concrete environment: provider login resolves with an empty token list. -/
def emptyTokenEnv : ModEnv := demoEnv (.ok ⟨none, none⟩) (.ok [])

/-- Concrete environment: provider rejects the credentials
(`AuthenticationError`). -/
def authErrEnv : ModEnv :=
  demoEnv (.ok ⟨none, none⟩)
    (.thrown ⟨.authentication, "Invalid credentials",
      "AuthenticationError: Invalid credentials"⟩)

/-- Concrete environment: provider anti-abuse layer rejects the request
(`UpstreamBlockedError`). -/
def blockedErrEnv : ModEnv :=
  demoEnv (.ok ⟨none, none⟩)
    (.thrown ⟨.upstreamBlocked, "Blocked by provider",
      "UpstreamBlockedError: Blocked by provider"⟩)

/-- Concrete environment: no module file matches the requested id, so the
dynamic import rejects. -/
def unknownModuleEnv : ModEnv :=
  { demoEnv (.ok ⟨none, none⟩) (.ok []) with
    importOk := false
    importErr := ⟨.moduleNotFound, "Module not found", "TypeError: Module not found"⟩ }

/-- Request body supplying both credentials. -/
def bothCredsBody : ReqBody := ⟨some "bob", some "hunter2"⟩

/-- Concrete environment whose request body supplies both credentials. -/
def bothCredsEnv : ModEnv := demoEnv (.ok bothCredsBody) (.ok ["t"])

/-- Two request environments agree on everything the login handler reads
except the password values (the request-body password and the persisted
password): same import outcome, same stored username/tokens/timestamp,
same body-parse outcome up to the body password, same provider response,
same clock. -/
def sameBodyExceptPassword : JsResult ReqBody → JsResult ReqBody → Bool
  | .thrown a, .thrown b => a = b
  | .ok a, .ok b => a.username = b.username
  | _, _ => false

def sameExceptPasswords (e1 e2 : ModEnv) : Bool :=
  (e1.importOk = e2.importOk) &&
  (e1.importErr = e2.importErr) &&
  (e1.storedAuth.username = e2.storedAuth.username) &&
  (e1.storedAuth.authTokens = e2.storedAuth.authTokens) &&
  (e1.storedAuth.lastupdated = e2.storedAuth.lastupdated) &&
  sameBodyExceptPassword e1.bodyResult e2.bodyResult &&
  (e1.loginResult = e2.loginResult) &&
  (e1.now = e2.now)

/-- The username component passed to `Loader.login`, when it was called. -/
def usernameSent (m : String) (env : ModEnv) : Option String :=
  ((loginHandler m env).loginCall).map Prod.fst

/-- The password component passed to `Loader.login`, when it was called. -/
def passwordSent (m : String) (env : ModEnv) : Option String :=
  ((loginHandler m env).loginCall).map Prod.snd

/-- Concrete pair for the noninterference witness: identical requests up
to the body password and the persisted password. -/
def pwEnvA : ModEnv :=
  { importOk := true
  , importErr := { kind := .internal, message := "", toStr := "" }
  , storedAuth := { username := "fileUser", password := "filePassA",
                    authTokens := ["old"], lastupdated := 5 }
  , bodyResult := .ok ⟨some "bob", some "pw1"⟩
  , loginResult := .ok ["t"]
  , now := 42 }

def pwEnvB : ModEnv :=
  { pwEnvA with
    storedAuth := { username := "fileUser", password := "filePassB",
                    authTokens := ["old"], lastupdated := 5 }
    bodyResult := .ok ⟨some "bob", some "pw2"⟩ }

/-- Helper: each handler execution constructs one module instance exactly
when the dynamic import resolves. -/
theorem constructed_eq (m : String) (e : ModEnv) :
    (loginHandler m e).constructed = if e.importOk then 1 else 0 := by
  obtain ⟨imp, ierr, sa, br, lr, n⟩ := e
  cases imp <;> cases br <;>
    simp [loginHandler, catchResult] <;>
    cases lr <;> simp [loginHandler, catchResult] <;>
    split <;> simp

/-- C4: Every execution of the login handler returns a uniform
ResponseEnvelope — its status is "SUCCESS" or "ERROR", it carries the
module id, and every ERROR envelope carries an error message; no thrown
error (module resolution, body parsing, or provider login) escapes the
handler as a bare exception. -/
theorem login_uniform_envelope (m : String) (env : ModEnv) :
    ((loginHandler m env).body.status = "SUCCESS" ∨
      (loginHandler m env).body.status = "ERROR") ∧
    (loginHandler m env).body.module = m ∧
    ((loginHandler m env).body.status = "ERROR" →
      (loginHandler m env).body.error ≠ none) := by
  obtain ⟨imp, ierr, sa, br, lr, n⟩ := env
  cases imp <;> cases br <;>
    simp [loginHandler, catchResult] <;>
    cases lr <;> simp [loginHandler, catchResult] <;>
    split <;> simp

/-- C5: Whenever the handler does not produce a SUCCESS envelope — empty
or falsy token list, or an error thrown at any step — `setAuth` is never
invoked, so the persisted AuthRecord is untouched. -/
theorem no_setAuth_without_success (m : String) (env : ModEnv)
    (h : (loginHandler m env).body.status ≠ "SUCCESS") :
    (loginHandler m env).setAuthCalls = [] := by
  obtain ⟨imp, ierr, sa, br, lr, n⟩ := env
  cases imp <;> cases br <;>
    simp [loginHandler, catchResult] <;>
    cases lr <;> simp [loginHandler, catchResult] at h ⊢ <;>
    split at h <;> simp_all [loginHandler, catchResult]

theorem no_setAuth_without_success_witness :
    (loginHandler "demo" emptyTokenEnv).setAuthCalls = [] :=
  no_setAuth_without_success "demo" emptyTokenEnv (by decide)

/-- C2 counterexample: at a concrete request in which the provider login
throws AuthenticationError the handler answers 500 (not 401), and at one
in which it throws UpstreamBlockedError it answers 500 (not 403) — both
error kinds are mapped to the same status. -/
theorem login_error_status_counterexample :
    (loginHandler "demo" authErrEnv).httpStatus = 500 ∧
    (loginHandler "demo" authErrEnv).httpStatus ≠ 401 ∧
    (loginHandler "demo" blockedErrEnv).httpStatus = 500 ∧
    (loginHandler "demo" blockedErrEnv).httpStatus ≠ 403 ∧
    (loginHandler "demo" authErrEnv).httpStatus =
      (loginHandler "demo" blockedErrEnv).httpStatus := by
  decide

/-- C2 amended: whatever error the provider login throws — including
AuthenticationError and UpstreamBlockedError — the catch block maps it to
an ERROR envelope with HTTP 500 carrying the error message; the two kinds
are mapped to the same status. -/
theorem login_thrown_error_maps_to_500 (m : String) (env : ModEnv)
    (r : ReqBody) (e : ErrVal)
    (h1 : env.importOk = true) (h2 : env.bodyResult = .ok r)
    (h3 : env.loginResult = .thrown e) :
    (loginHandler m env).httpStatus = 500 ∧
    (loginHandler m env).body.status = "ERROR" ∧
    (loginHandler m env).body.error = some (errMsg e) ∧
    (loginHandler m env).setAuthCalls = [] := by
  obtain ⟨imp, ierr, sa, br, lr, n⟩ := env
  simp only at h1 h2 h3
  subst h1 h2 h3
  simp [loginHandler, catchResult]

theorem login_thrown_error_maps_to_500_witness :
    (loginHandler "demo" authErrEnv).httpStatus = 500 ∧
    (loginHandler "demo" authErrEnv).body.status = "ERROR" ∧
    (loginHandler "demo" authErrEnv).body.error =
      some (errMsg ⟨.authentication, "Invalid credentials",
        "AuthenticationError: Invalid credentials"⟩) ∧
    (loginHandler "demo" authErrEnv).setAuthCalls = [] :=
  login_thrown_error_maps_to_500 "demo" authErrEnv ⟨none, none⟩
    ⟨.authentication, "Invalid credentials", "AuthenticationError: Invalid credentials"⟩
    rfl rfl rfl

/-- C3 counterexample: at a concrete request naming a module id for which
no module file exists, the handler answers 500 — not 404 as claimed. -/
theorem unknown_module_status_counterexample :
    (loginHandler "nosuch" unknownModuleEnv).httpStatus = 500 ∧
    (loginHandler "nosuch" unknownModuleEnv).httpStatus ≠ 404 := by
  decide

/-- C3 amended: when no module matches the requested id, the dynamic
module load rejects and the catch block answers an ERROR envelope with
HTTP 500 (not 404). -/
theorem unknown_module_maps_to_500 (m : String) (env : ModEnv)
    (h : env.importOk = false) :
    (loginHandler m env).httpStatus = 500 ∧
    (loginHandler m env).body.status = "ERROR" ∧
    (loginHandler m env).setAuthCalls = [] := by
  obtain ⟨imp, ierr, sa, br, lr, n⟩ := env
  simp only at h
  subst h
  simp [loginHandler, catchResult]

theorem unknown_module_maps_to_500_witness :
    (loginHandler "nosuch" unknownModuleEnv).httpStatus = 500 ∧
    (loginHandler "nosuch" unknownModuleEnv).body.status = "ERROR" ∧
    (loginHandler "nosuch" unknownModuleEnv).setAuthCalls = [] :=
  unknown_module_maps_to_500 "nosuch" unknownModuleEnv rfl

/-- C7 counterexample: two successive requests resolving the same module
id construct two module instances, refuting "at most one module instance
is constructed per process lifetime". -/
theorem module_instance_cache_counterexample :
    runRequests "demo" [okTokenEnv, okTokenEnv] = 2 ∧
    ¬ runRequests "demo" [okTokenEnv, okTokenEnv] ≤ 1 := by
  decide

/-- C7 amended: no instance cache exists — every request whose dynamic
module load resolves constructs a fresh module instance, so a run of requests
constructs exactly one instance per successfully resolved request. -/
theorem module_instance_per_request (m : String) (envs : List ModEnv) :
    runRequests m envs = (envs.filter (fun e => e.importOk)).length := by
  induction envs with
  | nil => simp [runRequests]
  | cons e es ih =>
    have hc := constructed_eq m e
    simp only [runRequests, List.map_cons, List.sum_cons] at ih ⊢
    cases h : e.importOk <;> simp [List.filter, h, hc, ih] <;> omega

/-- C1: With module import, body parse and provider login all resolving,
the handler persists a fresh AuthRecord (tokens set to the returned list,
timestamp updated) and returns a 200 SUCCESS envelope whose data is the
token list exactly when the returned list has a truthy first element;
otherwise it answers 401 with an ERROR envelope and calls `setAuth` never. -/
theorem login_success_iff_truthy_token (m : String) (env : ModEnv)
    (r : ReqBody) (l : List String)
    (h1 : env.importOk = true) (h2 : env.bodyResult = .ok r)
    (h3 : env.loginResult = .ok l) :
    (((loginHandler m env).httpStatus = 200 ∧
      (loginHandler m env).body.status = "SUCCESS" ∧
      (loginHandler m env).body.data = some l ∧
      (loginHandler m env).setAuthCalls =
        [{ env.storedAuth with authTokens := l, lastupdated := env.now }]) ↔
      hasValidToken l = true) ∧
    (hasValidToken l = false →
      (loginHandler m env).httpStatus = 401 ∧
      (loginHandler m env).body.status = "ERROR" ∧
      (loginHandler m env).setAuthCalls = []) := by
  obtain ⟨imp, ierr, sa, br, lr, n⟩ := env
  simp only at h1 h2 h3
  subst h1 h2 h3
  by_cases hv : hasValidToken l <;> simp [loginHandler, hv]

theorem login_success_iff_truthy_token_witness :
    (loginHandler "demo" okTokenEnv).httpStatus = 200 ∧
    (loginHandler "demo" okTokenEnv).body.status = "SUCCESS" ∧
    (loginHandler "demo" okTokenEnv).body.data = some ["abc"] ∧
    (loginHandler "demo" okTokenEnv).setAuthCalls =
      [{ okTokenEnv.storedAuth with authTokens := ["abc"], lastupdated := okTokenEnv.now }] :=
  (login_success_iff_truthy_token "demo" okTokenEnv ⟨none, none⟩ ["abc"]
    rfl rfl rfl).1.mpr (by decide)

/-- Helper: whenever the body parse resolved, `Loader.login` is called
with the JavaScript fallback of each credential. -/
theorem loginCall_eq (m : String) (env : ModEnv) (r : ReqBody)
    (h1 : env.importOk = true) (h2 : env.bodyResult = .ok r) :
    (loginHandler m env).loginCall =
      some (jsOrOpt r.username env.storedAuth.username,
            jsOrOpt r.password env.storedAuth.password) := by
  obtain ⟨imp, ierr, sa, br, lr, n⟩ := env
  simp only at h1 h2
  subst h1 h2
  cases lr <;> simp [loginHandler, catchResult] <;> split <;> simp

/-- C6: A username (resp. password) supplied in the request body is the
one passed to the module's login; when the body supplies none, the
handler falls back to the value stored in the persisted AuthRecord. -/
theorem login_credential_fallback (m : String) (env : ModEnv) (r : ReqBody)
    (h1 : env.importOk = true) (h2 : env.bodyResult = .ok r) :
    (r.username = none → usernameSent m env = some env.storedAuth.username) ∧
    (∀ u, r.username = some u → u ≠ "" → usernameSent m env = some u) ∧
    (r.password = none → passwordSent m env = some env.storedAuth.password) ∧
    (∀ pw, r.password = some pw → pw ≠ "" → passwordSent m env = some pw) := by
  have hc := loginCall_eq m env r h1 h2
  refine ⟨?_, ?_, ?_, ?_⟩
  · intro hu
    simp [usernameSent, hc, hu, jsOrOpt]
  · intro u hu hne
    simp [usernameSent, hc, hu, jsOrOpt, jsOr, hne]
  · intro hp
    simp [passwordSent, hc, hp, jsOrOpt]
  · intro pw hp hne
    simp [passwordSent, hc, hp, jsOrOpt, jsOr, hne]

theorem login_credential_fallback_witness :
    usernameSent "demo" bothCredsEnv = some "bob" ∧
    passwordSent "demo" bothCredsEnv = some "hunter2" := by
  have h := login_credential_fallback "demo" bothCredsEnv bothCredsBody rfl rfl
  exact ⟨h.2.1 "bob" rfl (by decide), h.2.2.2 "hunter2" rfl (by decide)⟩

/-- C9: A request-body username or password equal to the empty string is
treated exactly like an absent field — the whole handler execution is
indistinguishable from one whose body omits the field. -/
theorem empty_credentials_treated_as_absent (m : String) (env : ModEnv) (r : ReqBody) :
    (loginHandler m { env with bodyResult := .ok { r with username := some "" } } =
      loginHandler m { env with bodyResult := .ok { r with username := none } }) ∧
    (loginHandler m { env with bodyResult := .ok { r with password := some "" } } =
      loginHandler m { env with bodyResult := .ok { r with password := none } }) := by
  obtain ⟨imp, ierr, sa, br, lr, n⟩ := env
  obtain ⟨ru, rp⟩ := r
  cases imp <;> cases lr <;>
    simp [loginHandler, catchResult, attemptLog, jsOrOpt, jsOr]

/-- C10: On a successful login, the record handed to `setAuth` keeps the
loaded record's username and password unchanged; only `authTokens` and
`lastupdated` are replaced. -/
theorem setAuth_frame_preservation (m : String) (env : ModEnv)
    (r : ReqBody) (l : List String)
    (h1 : env.importOk = true) (h2 : env.bodyResult = .ok r)
    (h3 : env.loginResult = .ok l) (h4 : hasValidToken l = true) :
    (loginHandler m env).setAuthCalls =
      [{ username := env.storedAuth.username
       , password := env.storedAuth.password
       , authTokens := l
       , lastupdated := env.now }] := by
  obtain ⟨imp, ierr, sa, br, lr, n⟩ := env
  simp only at h1 h2 h3
  subst h1 h2 h3
  obtain ⟨su, sp, st, sl⟩ := sa
  simp [loginHandler, h4]

theorem setAuth_frame_preservation_witness :
    (loginHandler "demo" okTokenEnv).setAuthCalls =
      [{ username := "fileUser", password := "filePass",
         authTokens := ["abc"], lastupdated := 42 }] :=
  setAuth_frame_preservation "demo" okTokenEnv ⟨none, none⟩ ["abc"]
    rfl rfl rfl (by decide)

/-- C8: The handler's log output is independent of the password: two
requests that agree on everything except the password values (in the
request body and in the persisted AuthRecord), including agreeing on the
provider's response, emit identical log lines. -/
theorem login_logs_password_noninterference (m : String) (e1 e2 : ModEnv)
    (h : sameExceptPasswords e1 e2 = true) :
    (loginHandler m e1).logs = (loginHandler m e2).logs := by
  obtain ⟨i1, ie1, sa1, b1, l1, n1⟩ := e1
  obtain ⟨i2, ie2, sa2, b2, l2, n2⟩ := e2
  obtain ⟨su1, sp1, st1, sl1⟩ := sa1
  obtain ⟨su2, sp2, st2, sl2⟩ := sa2
  simp only [sameExceptPasswords, Bool.and_eq_true, decide_eq_true_eq] at h
  obtain ⟨⟨⟨⟨⟨⟨⟨hi, hie⟩, hsu⟩, hst⟩, hsl⟩, hb⟩, hl⟩, hn⟩ := h
  subst hi hie hsu hst hsl hl hn
  cases b1 with
  | thrown a =>
    cases b2 with
    | thrown b =>
      simp only [sameBodyExceptPassword, decide_eq_true_eq] at hb
      subst hb
      cases i1 <;> simp [loginHandler, catchResult]
    | ok rb => simp [sameBodyExceptPassword] at hb
  | ok ra =>
    cases b2 with
    | thrown b => simp [sameBodyExceptPassword] at hb
    | ok rb =>
      obtain ⟨ru1, rp1⟩ := ra
      obtain ⟨ru2, rp2⟩ := rb
      simp only [sameBodyExceptPassword, decide_eq_true_eq] at hb
      subst hb
      cases i1 <;> cases l1 <;>
        simp [loginHandler, catchResult, attemptLog] <;> split <;> simp

theorem login_logs_password_noninterference_witness :
    sameExceptPasswords pwEnvA pwEnvB = true ∧
    (loginHandler "demo" pwEnvA).logs = (loginHandler "demo" pwEnvB).logs :=
  ⟨by decide, login_logs_password_noninterference "demo" pwEnvA pwEnvB (by decide)⟩
